import Mathlib

/-!
Voxtype core: shallow embedding and verification

A shallow embedding of the voxtype voice-dictation daemon's core:

* the binary audio wire codec shared by `src/transcribe/subprocess.rs`
  (`SubprocessTranscriber::write_audio_to_worker`) and
  `src/transcribe/worker.rs` (`run_worker`'s stdin read path);
* the worker process entry point `run_worker`;
* the parent-side response handling (`read_worker_response`, the response
  resolution at the end of `SubprocessTranscriber::transcribe`);
* the daemon event loop `Daemon::run` from `src/daemon.rs`, modelled as a
  step function over one iteration of the `tokio::select!` loop.

Modelling conventions:

* Bytes are `Nat` values below 256; a 32-bit sample is represented by its
  IEEE-754 bit pattern, a `Nat` below 2 ^ 32.  Both sides of the wire
  protocol move samples by raw little-endian byte reinterpretation
  (`std::slice::from_raw_parts` in `write_audio_to_worker`,
  `from_raw_parts_mut` in `run_worker`), so the codec is exactly a
  bit-pattern codec and never inspects the floating-point value.
* OS-level I/O outcomes (pipe read/write failures, spawn failures, process
  exit status) are inputs to the model, supplied by an environment record.
* The external inference engine (`WhisperTranscriber`, out of scope per the
  spec) is an oracle parameter `List Nat → Except String String`.
-/

namespace Voxtype

/-! ## Binary audio protocol codec -/

/-- Worker-side ceiling on the sample count, `const MAX_SAMPLES: usize =
16000 * 60 * 10` in `run_worker` (`src/transcribe/worker.rs`). -/
def MAX_SAMPLES : Nat := 16000 * 60 * 10

/-- Little-endian byte encoding of a 32-bit word (`u32::to_le_bytes`); also
the byte image of one `f32` sample under raw reinterpretation on a
little-endian target. -/
def u32ToLeBytes (n : Nat) : List Nat :=
  [n % 256, n / 256 % 256, n / 256 / 256 % 256, n / 256 / 256 / 256 % 256]

/-- Little-endian decoding of four bytes to a 32-bit word
(`u32::from_le_bytes`). -/
def leBytesToU32 (b0 b1 b2 b3 : Nat) : Nat :=
  b0 + 256 * b1 + 256 * 256 * b2 + 256 * 256 * 256 * b3

theorem leBytesToU32_u32ToLeBytes (n : Nat) (h : n < 2 ^ 32) :
    leBytesToU32 (n % 256) (n / 256 % 256) (n / 256 / 256 % 256)
      (n / 256 / 256 / 256 % 256) = n := by
  unfold leBytesToU32
  omega

/-- The bytes `SubprocessTranscriber::write_audio_to_worker`
(`src/transcribe/subprocess.rs`, lines 95-121) writes to the worker's stdin
when the pipe accepts them: the sample count `samples.len() as u32`
little-endian (the `as u32` cast truncates modulo 2 ^ 32), then every
sample's four little-endian bytes, produced by raw byte reinterpretation of
the `f32` buffer.  Pipe-write failures are environmental and modelled in
`Subprocess.transcribe`; this function is the payload itself. -/
def write_audio_to_worker (samples : List Nat) : List Nat :=
  u32ToLeBytes (samples.length % 2 ^ 32) ++ samples.flatMap u32ToLeBytes

/-- The little-endian `sample_count` header of a wire payload (its first
four bytes), as the worker decodes it. -/
def decodeHeader : List Nat → Nat
  | b0 :: b1 :: b2 :: b3 :: _ => leBytesToU32 b0 b1 b2 b3
  | _ => 0

/-- Reinterpret a byte stream as consecutive little-endian 32-bit samples,
as `run_worker`'s `from_raw_parts_mut` read does. -/
def bytesToSamples : List Nat → List Nat
  | b0 :: b1 :: b2 :: b3 :: rest => leBytesToU32 b0 b1 b2 b3 :: bytesToSamples rest
  | _ => []

theorem length_flatMap_u32ToLeBytes (samples : List Nat) :
    (samples.flatMap u32ToLeBytes).length = 4 * samples.length := by
  induction samples with
  | nil => simp
  | cons x xs ih => simp [u32ToLeBytes, ih]; ring

theorem flatMap_u32ToLeBytes_cons (x : Nat) (xs : List Nat) :
    (x :: xs).flatMap u32ToLeBytes =
      x % 256 :: x / 256 % 256 :: x / 256 / 256 % 256 ::
        x / 256 / 256 / 256 % 256 :: xs.flatMap u32ToLeBytes := rfl

theorem bytesToSamples_flatMap (samples : List Nat)
    (h : ∀ x ∈ samples, x < 2 ^ 32) :
    bytesToSamples (samples.flatMap u32ToLeBytes) = samples := by
  induction samples with
  | nil => simp [bytesToSamples]
  | cons x xs ih =>
      have hx : x < 2 ^ 32 := h x (List.mem_cons_self x xs)
      have hxs : ∀ y ∈ xs, y < 2 ^ 32 := fun y hy => h y (List.mem_cons_of_mem x hy)
      rw [flatMap_u32ToLeBytes_cons]
      simp only [bytesToSamples]
      rw [leBytesToU32_u32ToLeBytes x hx, ih hxs]

/-! ## Worker process (`src/transcribe/worker.rs`) -/

namespace Worker

/-- The worker's JSON response enum from `src/transcribe/worker.rs`: the two
variants both carry the `ok` discriminant field, exactly as in the source
(`Success \x7b ok, text \x7d` / `Error \x7b ok, error \x7d`). -/
inductive WorkerResponse where
  | Success (ok : Bool) (text : String) : WorkerResponse
  | Error (ok : Bool) (error : String) : WorkerResponse
deriving DecidableEq, Repr

/-- Constructor `WorkerResponse::success`: an `ok = true` response carrying text. -/
def WorkerResponse.success (text : String) : WorkerResponse :=
  .Success true text

/-- Constructor `WorkerResponse::error`: an `ok = false` response carrying a message. -/
def WorkerResponse.mkError (msg : String) : WorkerResponse :=
  .Error false msg

/-- The `ok` discriminant of a response. -/
def WorkerResponse.okField : WorkerResponse → Bool
  | .Success ok _ => ok
  | .Error ok _ => ok

/-- The stdin read path of `run_worker` (`src/transcribe/worker.rs`,
lines 49-91): read exactly 4 bytes as the little-endian `sample_count`
(`read_exact` on `count_buf` fails when the stream holds fewer than 4
bytes); reject counts above `MAX_SAMPLES`, then a zero count; only then
allocate the buffer and `read_exact` its `4 * sample_count` bytes, which
fails when the remaining stream is shorter; the bytes read are
reinterpreted in place as little-endian `f32` values.  The OS text appended
to the two io-error messages (`format!("...: \x7be\x7d")`) is abstracted
away; the errors here are the messages the worker puts in its `ok = false`
response. -/
def read_audio : List Nat → Except String (List Nat)
  | b0 :: b1 :: b2 :: b3 :: rest =>
      let sample_count := leBytesToU32 b0 b1 b2 b3
      if sample_count > MAX_SAMPLES then
        .error ("Sample count too large: " ++ toString sample_count ++
          " (max " ++ toString MAX_SAMPLES ++ ")")
      else if sample_count = 0 then
        .error "Empty audio buffer"
      else if rest.length < 4 * sample_count then
        .error "Failed to read audio samples"
      else
        .ok (bytesToSamples (rest.take (4 * sample_count)))
  | _ => .error "Failed to read sample count"

/-- Entry point `run_worker` (`src/transcribe/worker.rs`, lines 44-129), parametrised
by the external inference engine `tf` (model load plus transcription,
`WhisperTranscriber::new` then `transcribe`; a `.error` covers both
`Failed to load model` and an inference failure, each of which the worker
turns into an error response).  The result is the single structured
response written to stdout paired with the function's own `anyhow::Result`
return value: every path of the source writes one response via
`write_response` and then `return Ok(())`. -/
def run_worker (tf : List Nat → Except String String) (input : List Nat) :
    WorkerResponse × Except String Unit :=
  match read_audio input with
  | .error msg => (WorkerResponse.mkError msg, .ok ())
  | .ok samples =>
      match tf samples with
      | .ok text => (WorkerResponse.success text, .ok ())
      | .error e => (WorkerResponse.mkError e, .ok ())

end Worker

/-! ## Subprocess transcriber (`src/transcribe/subprocess.rs`) -/

/-- Modelled from the spec: the error type of `src/error.rs` is not among
the given files; the three variants that `SubprocessTranscriber` constructs
(`TranscribeError::AudioFormat`, `InitFailed`, `InferenceFailed`, each
carrying a message string) are reproduced from their construction sites in
`src/transcribe/subprocess.rs` and the spec's error taxonomy (spec section 7). -/
inductive TranscribeError where
  | AudioFormat (msg : String) : TranscribeError
  | InitFailed (msg : String) : TranscribeError
  | InferenceFailed (msg : String) : TranscribeError
deriving DecidableEq, Repr

namespace Subprocess

/-- The parent-side deserialized response struct of
`src/transcribe/subprocess.rs` (lines 25-32): `ok` is required, `text` and
`error` default to absent. -/
structure WorkerResponse where
  ok : Bool
  text : Option String
  error : Option String
deriving DecidableEq, Repr

/-- Rust `str::lines` semantics: split on newline, strip one trailing
carriage return from each line, and do not yield a final empty line for a
trailing newline (the empty string yields no lines). -/
def rustLines (s : String) : List String :=
  let parts := (s.splitOn "\n").map fun l =>
    if l.endsWith "\r" then l.dropRight 1 else l
  if s = "" then [] else if s.endsWith "\n" then parts.dropLast else parts

/-- The line `read_worker_response` parses: `output.lines().last()` with
`""` for an output that has no lines (line 133 of
`src/transcribe/subprocess.rs`). -/
def lastLine (s : String) : String :=
  ((rustLines s).getLast?).getD ""

/-- Reader `SubprocessTranscriber::read_worker_response`
(`src/transcribe/subprocess.rs`, lines 124-141): drain the worker's stdout
to a string (`readOk` is the outcome of `read_to_string`, an OS input),
take the last line, and run the JSON deserializer on it.  The deserializer
`serde_json::from_str::<WorkerResponse>` is external library code and is
abstracted as the oracle `parse`; a parse failure yields an
`InferenceFailed` error whose diagnostic embeds the whole captured
output. -/
def read_worker_response (parse : String → Option WorkerResponse)
    (readOk : Bool) (output : String) :
    Except TranscribeError WorkerResponse :=
  if readOk = false then
    .error (.InferenceFailed "Failed to read worker output")
  else
    match parse (lastLine output) with
    | some r => .ok r
    | none =>
        .error (.InferenceFailed
          ("Failed to parse worker response (output: " ++ output ++ ")"))

/-- The response resolution at the end of
`SubprocessTranscriber::transcribe` (`src/transcribe/subprocess.rs`,
lines 198-207): `ok` with text present succeeds with the text; `ok` with
text absent is the protocol-violation error; not `ok` surfaces the carried
error message, with `Unknown worker error` standing in when the `error`
field is absent. -/
def resolve_response (r : WorkerResponse) : Except TranscribeError String :=
  if r.ok then
    match r.text with
    | some t => .ok t
    | none => .error (.InferenceFailed "Worker returned ok but no text")
  else
    .error (.InferenceFailed (r.error.getD "Unknown worker error"))

/-- One call's environment: the OS and worker-process outcomes that
`SubprocessTranscriber::transcribe` observes.  `spawnResult` is
`spawn_worker` (`current_exe` resolution plus `Command::spawn`);
`stdinAvailable` / `stdoutAvailable` are the `child.stdin.take()` /
`child.stdout.take()` handles; `writeOk` collapses the three fallible pipe
writes of `write_audio_to_worker` (count, samples, flush); `readOk` is
stdout's `read_to_string`; `waitOk` is `child.wait()`; `workerStdout` is
the text the worker wrote to its stdout; `parse` is the external JSON
deserializer. -/
structure WorkerEnv where
  spawnResult : Except String Unit
  stdinAvailable : Bool
  stdoutAvailable : Bool
  writeOk : Bool
  readOk : Bool
  waitOk : Bool
  workerStdout : String
  parse : String → Option WorkerResponse

/-- Method `SubprocessTranscriber::transcribe`
(`src/transcribe/subprocess.rs`, lines 145-208).  The first component
records whether `spawn_worker` was invoked (the empty-buffer guard on
line 146 returns before any process work); the second is the call's
result.  The exit-status branch (lines 182-191) only logs stderr and does
not affect the result, so it has no footprint here beyond `waitOk`, whose
failure is the `child.wait()` error on line 178. -/
def transcribe (env : WorkerEnv) (samples : List Nat) :
    Bool × Except TranscribeError String :=
  if samples.isEmpty then
    (false, .error (.AudioFormat "Empty audio buffer"))
  else
    (true,
      match env.spawnResult with
      | .error e => .error (.InitFailed ("Failed to spawn transcribe-worker: " ++ e))
      | .ok _ =>
        if env.stdinAvailable = false then
          .error (.InitFailed "Worker stdin not available")
        else if env.stdoutAvailable = false then
          .error (.InitFailed "Worker stdout not available")
        else if env.writeOk = false then
          .error (.InferenceFailed "Failed to write audio samples")
        else
          match read_worker_response env.parse env.readOk env.workerStdout with
          | .error e => .error e
          | .ok resp =>
              if env.waitOk = false then
                .error (.InferenceFailed "Failed to wait for worker")
              else resolve_response resp)

end Subprocess

/-! ## Daemon event loop (`src/daemon.rs`) -/

/-- Modelled from the spec: the session state enum of `src/state.rs` is not
among the given files.  Spec section 3 gives the tagged variant
(`Idle`; `Recording` with its start timestamp; `Transcribing` with the
audio buffer; `Outputting` with the text), and `src/daemon.rs` uses the
helpers `is_idle`, `is_recording` and `recording_duration`.  Timestamps
(`std::time::Instant`) are abstract `Nat` instants. -/
inductive State where
  | Idle : State
  | Recording (started_at : Nat) : State
  | Transcribing (audio : List Nat) : State
  | Outputting (text : String) : State
deriving DecidableEq, Repr

/-- Modelled from the spec: `State::is_idle` used at `src/daemon.rs:147`. -/
def State.is_idle : State → Bool
  | .Idle => true
  | _ => false

/-- Modelled from the spec: `State::is_recording` used at
`src/daemon.rs:180` and in the timeout arm's guard. -/
def State.is_recording : State → Bool
  | .Recording _ => true
  | _ => false

/-- Whether the state is the transcription-in-flight variant. -/
def State.is_transcribing : State → Bool
  | .Transcribing _ => true
  | _ => false

/-- Modelled from the spec: `State::recording_duration` used at
`src/daemon.rs:181` and `:275`, the elapsed time since `started_at`
(`Instant` elapsed), `none` outside `Recording`. -/
def State.recording_duration (now : Nat) : State → Option Nat
  | .Recording t => some (now - t)
  | _ => none

/-- Hotkey events delivered by the listener channel (`src/hotkey.rs`). -/
inductive HotkeyEvent where
  | Pressed : HotkeyEvent
  | Released : HotkeyEvent
deriving DecidableEq, Repr

/-- The stimulus serviced by one iteration of the `tokio::select!` in
`Daemon::run` (`src/daemon.rs`, lines 140-297): a hotkey event from the
listener channel, the 100 ms timeout tick (its arm is guarded by
`state.is_recording()`), or the interrupt signal. -/
inductive Stim where
  | hotkey (ev : HotkeyEvent) : Stim
  | timeoutTick : Stim
  | ctrlc : Stim
deriving DecidableEq, Repr

/-- External-collaborator outcomes available to one loop iteration:
the current instant, the result of creating and starting an audio capture
(`audio::create_capture` then `capture.start()`, collapsed: either yields
no running capture), the samples or error from `capture.stop()`, the
joined `spawn_blocking` transcription result (outer `.error` is the tokio
join error, inner is the transcriber's own result), and whether the output
chain delivered. -/
structure Iter where
  now : Nat
  captureStart : Except String Unit
  stopResult : Except String (List Nat)
  transcribeResult : Except String (Except TranscribeError String)
  outputOk : Bool

/-- The loop-carried mutable locals of `Daemon::run`: `state` and
`audio_capture` (the boxed capture handle, abstracted to presence). -/
structure DaemonState where
  state : State
  audio_capture : Option Unit
deriving DecidableEq, Repr

/-- Everything one serviced iteration produces: the loop-carried locals at
the next iteration boundary (the select point), the `update_state` calls
made to the external state sink in order, the texts handed to
`output_with_fallback`, whether `transcriber.transcribe` was dispatched,
and whether the loop breaks (interrupt). -/
structure StepOut where
  next : DaemonState
  reports : List String
  outputs : List String
  transcribed : Bool
  exit : Bool
deriving DecidableEq, Repr

/-- The audio duration test of `src/daemon.rs:196-199`:
`samples.len() as f32 / 16000.0`.  Exact rationals stand in for `f32`
arithmetic: for every length the `f32` comparison against the literal
`0.3` agrees with the exact rational comparison, because both change truth
value exactly at 4800 samples (4800/16000 rounds to the same `f32` as the
literal `0.3`, and no admissible length maps across the boundary). -/
def audio_duration (len : Nat) : ℚ := (len : ℚ) / 16000

/-- One serviced iteration of the `Daemon::run` event loop
(`src/daemon.rs`, lines 140-297), for a given `max_duration`.

* `hotkey Pressed` (lines 145-176): only from `Idle`; a capture that
  creates and starts becomes `Recording` at the current instant with the
  handle held and `"recording"` reported; a failure leaves everything
  unchanged.
* `hotkey Released` (lines 178-269): only from `Recording`.  With a held
  handle, `capture.stop()` either errors (reset to `Idle`) or yields
  samples; a buffer shorter than 0.3 s is discarded to `Idle`; otherwise
  `"transcribing"` is reported, the transcription is dispatched to
  `spawn_blocking` and its join handle is awaited inline in this same arm
  (lines 216-221), after which every outcome (join error, transcriber
  error, empty text, delivered or failed output) ends at `Idle` with
  `"idle"` reported — all within this one serviced iteration.  With no
  held handle the state resets to `Idle` (lines 264-267).
* `timeoutTick` (lines 274-290): arm guarded by `state.is_recording()`;
  when the elapsed duration exceeds `max_duration` the capture is taken
  and stopped and the state resets to `Idle`.
* `ctrlc` (lines 293-296): break out of the loop. -/
def step (max_duration : Nat) (it : Iter) (d : DaemonState) :
    Stim → StepOut
  | .hotkey .Pressed =>
      if d.state.is_idle then
        match it.captureStart with
        | .ok _ =>
            { next := { state := .Recording it.now, audio_capture := some () },
              reports := ["recording"], outputs := [],
              transcribed := false, exit := false }
        | .error _ =>
            { next := d, reports := [], outputs := [],
              transcribed := false, exit := false }
      else
        { next := d, reports := [], outputs := [],
          transcribed := false, exit := false }
  | .hotkey .Released =>
      if d.state.is_recording then
        match d.audio_capture with
        | some _ =>
            match it.stopResult with
            | .ok samples =>
                if audio_duration samples.length < 3 / 10 then
                  { next := { state := .Idle, audio_capture := none },
                    reports := ["idle"], outputs := [],
                    transcribed := false, exit := false }
                else
                  match it.transcribeResult with
                  | .ok (.ok text) =>
                      if text = "" then
                        { next := { state := .Idle, audio_capture := none },
                          reports := ["transcribing", "idle"], outputs := [],
                          transcribed := true, exit := false }
                      else
                        { next := { state := .Idle, audio_capture := none },
                          reports := ["transcribing", "idle"],
                          outputs := [text],
                          transcribed := true, exit := false }
                  | .ok (.error _) =>
                      { next := { state := .Idle, audio_capture := none },
                        reports := ["transcribing", "idle"], outputs := [],
                        transcribed := true, exit := false }
                  | .error _ =>
                      { next := { state := .Idle, audio_capture := none },
                        reports := ["transcribing", "idle"], outputs := [],
                        transcribed := true, exit := false }
            | .error _ =>
                { next := { state := .Idle, audio_capture := none },
                  reports := ["idle"], outputs := [],
                  transcribed := false, exit := false }
        | none =>
            { next := { state := .Idle, audio_capture := none },
              reports := ["idle"], outputs := [],
              transcribed := false, exit := false }
      else
        { next := d, reports := [], outputs := [],
          transcribed := false, exit := false }
  | .timeoutTick =>
      if d.state.is_recording then
        match d.state.recording_duration it.now with
        | some dur =>
            if max_duration < dur then
              { next := { state := .Idle, audio_capture := none },
                reports := ["idle"], outputs := [],
                transcribed := false, exit := false }
            else
              { next := d, reports := [], outputs := [],
                transcribed := false, exit := false }
        | none =>
            { next := d, reports := [], outputs := [],
              transcribed := false, exit := false }
      else
        { next := d, reports := [], outputs := [],
          transcribed := false, exit := false }
  | .ctrlc =>
      { next := d, reports := [], outputs := [],
        transcribed := false, exit := true }

/-! ## Helper lemmas -/

theorem read_audio_short (input : List Nat) (h : input.length < 4) :
    Worker.read_audio input = .error "Failed to read sample count" := by
  match input with
  | [] => rfl
  | [_] => rfl
  | [_, _] => rfl
  | [_, _, _] => rfl
  | _ :: _ :: _ :: _ :: _ =>
      simp only [List.length_cons] at h
      omega

theorem read_audio_cons (b0 b1 b2 b3 : Nat) (rest : List Nat) :
    Worker.read_audio (b0 :: b1 :: b2 :: b3 :: rest) =
      (if leBytesToU32 b0 b1 b2 b3 > MAX_SAMPLES then
        .error ("Sample count too large: " ++ toString (leBytesToU32 b0 b1 b2 b3) ++
          " (max " ++ toString MAX_SAMPLES ++ ")")
      else if leBytesToU32 b0 b1 b2 b3 = 0 then
        .error "Empty audio buffer"
      else if rest.length < 4 * leBytesToU32 b0 b1 b2 b3 then
        .error "Failed to read audio samples"
      else
        .ok (bytesToSamples (rest.take (4 * leBytesToU32 b0 b1 b2 b3)))) := rfl

theorem read_audio_too_large (b0 b1 b2 b3 : Nat) (rest : List Nat)
    (h : MAX_SAMPLES < leBytesToU32 b0 b1 b2 b3) :
    Worker.read_audio (b0 :: b1 :: b2 :: b3 :: rest) =
      .error ("Sample count too large: " ++ toString (leBytesToU32 b0 b1 b2 b3) ++
        " (max " ++ toString MAX_SAMPLES ++ ")") := by
  rw [read_audio_cons, if_pos h]

theorem read_audio_zero (b0 b1 b2 b3 : Nat) (rest : List Nat)
    (h : leBytesToU32 b0 b1 b2 b3 = 0) :
    Worker.read_audio (b0 :: b1 :: b2 :: b3 :: rest) =
      .error "Empty audio buffer" := by
  have hbig : ¬ MAX_SAMPLES < leBytesToU32 b0 b1 b2 b3 := by omega
  rw [read_audio_cons, if_neg hbig, if_pos h]

theorem read_audio_truncated (b0 b1 b2 b3 : Nat) (rest : List Nat)
    (h0 : leBytesToU32 b0 b1 b2 b3 ≠ 0)
    (hle : leBytesToU32 b0 b1 b2 b3 ≤ MAX_SAMPLES)
    (ht : rest.length < 4 * leBytesToU32 b0 b1 b2 b3) :
    Worker.read_audio (b0 :: b1 :: b2 :: b3 :: rest) =
      .error "Failed to read audio samples" := by
  have hbig : ¬ MAX_SAMPLES < leBytesToU32 b0 b1 b2 b3 := by omega
  rw [read_audio_cons, if_neg hbig, if_neg h0, if_pos ht]

theorem read_audio_ok (b0 b1 b2 b3 : Nat) (rest : List Nat)
    (h0 : leBytesToU32 b0 b1 b2 b3 ≠ 0)
    (hle : leBytesToU32 b0 b1 b2 b3 ≤ MAX_SAMPLES)
    (hlen : 4 * leBytesToU32 b0 b1 b2 b3 ≤ rest.length) :
    Worker.read_audio (b0 :: b1 :: b2 :: b3 :: rest) =
      .ok (bytesToSamples (rest.take (4 * leBytesToU32 b0 b1 b2 b3))) := by
  have hbig : ¬ MAX_SAMPLES < leBytesToU32 b0 b1 b2 b3 := by omega
  have hfits : ¬ rest.length < 4 * leBytesToU32 b0 b1 b2 b3 := by omega
  rw [read_audio_cons, if_neg hbig, if_neg h0, if_neg hfits]

theorem run_worker_of_read_audio_error (tf : List Nat → Except String String)
    (input : List Nat) (msg : String)
    (h : Worker.read_audio input = .error msg) :
    Worker.run_worker tf input = (Worker.WorkerResponse.mkError msg, .ok ()) := by
  unfold Worker.run_worker
  rw [h]

theorem audio_duration_lt_iff (len : Nat) :
    (audio_duration len < 3 / 10) ↔ len < 4800 := by
  unfold audio_duration
  rw [div_lt_div_iff₀ (by norm_num) (by norm_num)]
  norm_cast
  omega

/-! ## Claim theorems -/

/-- C4: for every sample count `c` with `0 < c ≤ 9,600,000` and every
sequence of `c` 32-bit samples, `write_audio_to_worker` produces a payload
of exactly `4 + 4 c` bytes (little-endian count then the samples'
little-endian bytes), and `run_worker`'s stdin read path decodes that
payload back to the identical sample sequence. -/
theorem codec_roundtrip (samples : List Nat)
    (hpos : 0 < samples.length) (hmax : samples.length ≤ MAX_SAMPLES)
    (hbits : ∀ x ∈ samples, x < 2 ^ 32) :
    (write_audio_to_worker samples).length = 4 + 4 * samples.length ∧
    Worker.read_audio (write_audio_to_worker samples) = .ok samples := by
  have hlt : samples.length < 2 ^ 32 := by
    have : MAX_SAMPLES < 2 ^ 32 := by norm_num [MAX_SAMPLES]
    omega
  have hmod : samples.length % 2 ^ 32 = samples.length := Nat.mod_eq_of_lt hlt
  have hdec := leBytesToU32_u32ToLeBytes samples.length hlt
  constructor
  · unfold write_audio_to_worker
    rw [List.length_append, length_flatMap_u32ToLeBytes]
    simp [u32ToLeBytes]
  · have hcons : write_audio_to_worker samples =
        samples.length % 256 :: samples.length / 256 % 256 ::
        samples.length / 256 / 256 % 256 ::
        samples.length / 256 / 256 / 256 % 256 ::
        samples.flatMap u32ToLeBytes := by
      unfold write_audio_to_worker u32ToLeBytes
      rw [hmod]
      rfl
    have h0 : leBytesToU32 (samples.length % 256) (samples.length / 256 % 256)
        (samples.length / 256 / 256 % 256) (samples.length / 256 / 256 / 256 % 256) ≠ 0 := by
      rw [hdec]; omega
    have hle : leBytesToU32 (samples.length % 256) (samples.length / 256 % 256)
        (samples.length / 256 / 256 % 256) (samples.length / 256 / 256 / 256 % 256) ≤
        MAX_SAMPLES := by
      rw [hdec]; exact hmax
    have hlen : 4 * leBytesToU32 (samples.length % 256) (samples.length / 256 % 256)
        (samples.length / 256 / 256 % 256) (samples.length / 256 / 256 / 256 % 256) ≤
        (samples.flatMap u32ToLeBytes).length := by
      rw [hdec, length_flatMap_u32ToLeBytes]
    rw [hcons, read_audio_ok _ _ _ _ _ h0 hle hlen, hdec]
    rw [List.take_of_length_le (le_of_eq (length_flatMap_u32ToLeBytes samples))]
    rw [bytesToSamples_flatMap samples hbits]

/-- Witness for C4 at the one-sample sequence whose sample is the bit
pattern of the float one. -/
theorem codec_roundtrip_witness :
    (write_audio_to_worker [1065353216]).length = 4 + 4 * ([1065353216] : List Nat).length ∧
    Worker.read_audio (write_audio_to_worker [1065353216]) = .ok [1065353216] :=
  codec_roundtrip [1065353216] (by decide) (by decide) (by decide)

/-- C3: on every input stream, `run_worker` returns `Ok` from its own entry
point, and each protocol failure — an unreadable 4-byte count, a decoded
count above 9,600,000, a zero count, truncated sample bytes — is answered
with a structured `ok = false` error response; in the oversized and zero
cases the result never depends on the bytes after the 4-byte header (the
sample buffer is neither read nor allocated). -/
theorem run_worker_protocol_errors (tf : List Nat → Except String String)
    (input : List Nat) :
    ((Worker.run_worker tf input).2 = .ok ()) ∧
    ((Worker.run_worker tf input).1.okField = false ∨
      ∃ t, (Worker.run_worker tf input).1 = Worker.WorkerResponse.success t) ∧
    (input.length < 4 →
      (Worker.run_worker tf input).1 =
        Worker.WorkerResponse.mkError "Failed to read sample count") ∧
    (∀ b0 b1 b2 b3 rest, input = b0 :: b1 :: b2 :: b3 :: rest →
      (MAX_SAMPLES < leBytesToU32 b0 b1 b2 b3 →
        (Worker.run_worker tf input).1 =
          Worker.WorkerResponse.mkError ("Sample count too large: " ++
            toString (leBytesToU32 b0 b1 b2 b3) ++ " (max " ++
            toString MAX_SAMPLES ++ ")") ∧
        ∀ rest2, Worker.run_worker tf (b0 :: b1 :: b2 :: b3 :: rest2) =
          Worker.run_worker tf input) ∧
      (leBytesToU32 b0 b1 b2 b3 = 0 →
        (Worker.run_worker tf input).1 =
          Worker.WorkerResponse.mkError "Empty audio buffer" ∧
        ∀ rest2, Worker.run_worker tf (b0 :: b1 :: b2 :: b3 :: rest2) =
          Worker.run_worker tf input) ∧
      (0 < leBytesToU32 b0 b1 b2 b3 → leBytesToU32 b0 b1 b2 b3 ≤ MAX_SAMPLES →
        rest.length < 4 * leBytesToU32 b0 b1 b2 b3 →
        (Worker.run_worker tf input).1 =
          Worker.WorkerResponse.mkError "Failed to read audio samples")) := by
  refine ⟨?_, ?_, ?_, ?_⟩
  · cases hr : Worker.read_audio input with
    | error m => simp [Worker.run_worker, hr]
    | ok s =>
        cases ht : tf s with
        | ok t => simp [Worker.run_worker, hr, ht]
        | error e => simp [Worker.run_worker, hr, ht]
  · cases hr : Worker.read_audio input with
    | error m =>
        exact Or.inl (by
          simp [Worker.run_worker, hr, Worker.WorkerResponse.mkError,
            Worker.WorkerResponse.okField])
    | ok s =>
        cases ht : tf s with
        | ok t => exact Or.inr ⟨t, by simp [Worker.run_worker, hr, ht]⟩
        | error e =>
            exact Or.inl (by
              simp [Worker.run_worker, hr, ht, Worker.WorkerResponse.mkError,
                Worker.WorkerResponse.okField])
  · intro h
    rw [run_worker_of_read_audio_error tf input _ (read_audio_short input h)]
  · intro b0 b1 b2 b3 rest hin
    subst hin
    refine ⟨?_, ?_, ?_⟩
    · intro hbig
      refine ⟨?_, ?_⟩
      · rw [run_worker_of_read_audio_error tf _ _ (read_audio_too_large _ _ _ _ rest hbig)]
      · intro rest2
        rw [run_worker_of_read_audio_error tf _ _ (read_audio_too_large _ _ _ _ rest hbig),
          run_worker_of_read_audio_error tf _ _ (read_audio_too_large _ _ _ _ rest2 hbig)]
    · intro hzero
      refine ⟨?_, ?_⟩
      · rw [run_worker_of_read_audio_error tf _ _ (read_audio_zero _ _ _ _ rest hzero)]
      · intro rest2
        rw [run_worker_of_read_audio_error tf _ _ (read_audio_zero _ _ _ _ rest hzero),
          run_worker_of_read_audio_error tf _ _ (read_audio_zero _ _ _ _ rest2 hzero)]
    · intro hpos hle htrunc
      rw [run_worker_of_read_audio_error tf _ _
        (read_audio_truncated _ _ _ _ rest (by omega) hle htrunc)]

/-- Witness for C3 at the truncated stream `[1, 0, 0, 0]`: a count of one
sample with no sample bytes behind it. -/
theorem run_worker_protocol_errors_witness :
    (Worker.run_worker (fun _ => Except.ok "") [1, 0, 0, 0]).1 =
      Worker.WorkerResponse.mkError "Failed to read audio samples" := by
  have h := run_worker_protocol_errors (fun _ => Except.ok "") [1, 0, 0, 0]
  exact (h.2.2.2 1 0 0 0 [] rfl).2.2 (by decide) (by decide) (by decide)

/-- C8: for the empty sample buffer, `SubprocessTranscriber::transcribe`
fails immediately with the audio-format error and `spawn_worker` is never
invoked, whatever the environment would have answered. -/
theorem transcribe_empty_rejected (env : Subprocess.WorkerEnv) :
    Subprocess.transcribe env [] =
      (false, .error (.AudioFormat "Empty audio buffer")) := rfl

/-- C9: the parent parses only the final line of whatever the worker wrote
to its output stream — the reader succeeds with a response exactly when the
deserializer accepts the last line (an empty stream has no last line and
the empty string is offered instead), an unparsable or absent final line is
an inference error, the reader's outcome is always exactly one of
parsed-response or error (no panic path exists), and through `transcribe`
an unparsable final line surfaces as an error result. -/
theorem read_worker_response_last_line
    (parse : String → Option Subprocess.WorkerResponse) (output : String) :
    (∀ r, Subprocess.read_worker_response parse true output = .ok r ↔
      parse (Subprocess.lastLine output) = some r) ∧
    (parse (Subprocess.lastLine output) = none →
      ∃ m, Subprocess.read_worker_response parse true output =
        .error (.InferenceFailed m)) ∧
    ((∃ r, Subprocess.read_worker_response parse true output = .ok r) ∨
      (∃ m, Subprocess.read_worker_response parse true output =
        .error (.InferenceFailed m))) ∧
    (∀ (env : Subprocess.WorkerEnv) (samples : List Nat), samples ≠ [] →
      env.spawnResult = .ok () → env.stdinAvailable = true →
      env.stdoutAvailable = true → env.writeOk = true → env.readOk = true →
      env.parse (Subprocess.lastLine env.workerStdout) = none →
      ∃ m, (Subprocess.transcribe env samples).2 =
        .error (.InferenceFailed m)) := by
  refine ⟨?_, ?_, ?_, ?_⟩
  · intro r
    cases hp : parse (Subprocess.lastLine output) with
    | none => simp [Subprocess.read_worker_response, hp]
    | some r2 => simp [Subprocess.read_worker_response, hp]
  · intro hp
    refine ⟨"Failed to parse worker response (output: " ++ output ++ ")", ?_⟩
    simp [Subprocess.read_worker_response, hp]
  · cases hp : parse (Subprocess.lastLine output) with
    | none =>
        refine Or.inr ⟨"Failed to parse worker response (output: " ++ output ++ ")", ?_⟩
        simp [Subprocess.read_worker_response, hp]
    | some r => exact Or.inl ⟨r, by simp [Subprocess.read_worker_response, hp]⟩
  · intro env samples hne h1 h2 h3 h4 h5 hp
    match samples, hne with
    | a :: l, _ =>
        refine ⟨"Failed to parse worker response (output: " ++
          env.workerStdout ++ ")", ?_⟩
        simp [Subprocess.transcribe, Subprocess.read_worker_response,
          h1, h2, h3, h4, h5, hp]

/-- Witness for C9 at the empty output stream and a deserializer that
rejects every line. -/
theorem read_worker_response_last_line_witness :
    ∃ m, Subprocess.read_worker_response (fun _ => none) true "" =
      .error (TranscribeError.InferenceFailed m) :=
  (read_worker_response_last_line (fun _ => none) "").2.1 rfl

/-- C6: resolution of a parsed worker response by
`SubprocessTranscriber::transcribe`: `ok` with text present succeeds with
that text, `ok` with text absent is the protocol-violation error, not `ok`
with a carried message surfaces exactly that message. -/
theorem resolve_response_cases (r : Subprocess.WorkerResponse) :
    (∀ t, r.ok = true → r.text = some t →
      Subprocess.resolve_response r = .ok t) ∧
    (r.ok = true → r.text = none →
      Subprocess.resolve_response r =
        .error (.InferenceFailed "Worker returned ok but no text")) ∧
    (∀ m, r.ok = false → r.error = some m →
      Subprocess.resolve_response r = .error (.InferenceFailed m)) := by
  obtain ⟨ok, text, err⟩ := r
  refine ⟨?_, ?_, ?_⟩
  · intro t hok ht
    have hok2 : ok = true := hok
    have ht2 : text = some t := ht
    subst hok2; subst ht2
    simp [Subprocess.resolve_response]
  · intro hok ht
    have hok2 : ok = true := hok
    have ht2 : text = none := ht
    subst hok2; subst ht2
    simp [Subprocess.resolve_response]
  · intro m hok he
    have hok2 : ok = false := hok
    have he2 : err = some m := he
    subst hok2; subst he2
    simp [Subprocess.resolve_response]

/-- Witness for C6 at the response parsed from
`{"ok":false,"error":"model not found"}`: that exact message surfaces. -/
theorem resolve_response_cases_witness :
    Subprocess.resolve_response ⟨false, none, some "model not found"⟩ =
      .error (.InferenceFailed "model not found") :=
  (resolve_response_cases ⟨false, none, some "model not found"⟩).2.2
    "model not found" rfl rfl

/-- Counterexample to C2 as stated: the non-empty buffer of 9,600,001 zero
samples is accepted by `transcribe` (only emptiness is checked), yet the
payload `write_audio_to_worker` builds for it carries a `sample_count`
header of 9,600,001, strictly above the 9,600,000 ceiling — the parent has
no ceiling check; the ceiling lives only inside the worker. -/
theorem sample_count_ceiling_cex :
    (List.replicate 9600001 (0 : Nat)).length ≠ 0 ∧
    MAX_SAMPLES <
      decodeHeader (write_audio_to_worker (List.replicate 9600001 (0 : Nat))) := by
  constructor
  · rw [List.length_replicate]
    norm_num
  · have hlen : (List.replicate 9600001 (0 : Nat)).length = 9600001 :=
      List.length_replicate 9600001 0
    have hmod : (9600001 : Nat) % 2 ^ 32 = 9600001 := by norm_num
    have hdec := leBytesToU32_u32ToLeBytes 9600001 (by norm_num)
    have hcons : write_audio_to_worker (List.replicate 9600001 (0 : Nat)) =
        9600001 % 256 :: 9600001 / 256 % 256 :: 9600001 / 256 / 256 % 256 ::
          9600001 / 256 / 256 / 256 % 256 ::
          (List.replicate 9600001 (0 : Nat)).flatMap u32ToLeBytes := by
      unfold write_audio_to_worker u32ToLeBytes
      rw [hlen, hmod]
      rfl
    rw [hcons]
    simp only [decodeHeader]
    rw [hdec]
    norm_num [MAX_SAMPLES]

/-- C2 amended: `transcribe` accepts every non-empty buffer, and the
`sample_count` header of the payload is `samples.len()` truncated modulo
2 ^ 32 with no ceiling check, so it stays within the 9,600,000 ceiling
exactly when the buffer itself does (a longer accepted buffer overshoots
it, as the counterexample shows). -/
theorem sample_count_field_unchecked (env : Subprocess.WorkerEnv)
    (samples : List Nat) :
    (samples ≠ [] → (Subprocess.transcribe env samples).1 = true) ∧
    decodeHeader (write_audio_to_worker samples) = samples.length % 2 ^ 32 ∧
    (samples.length ≤ MAX_SAMPLES →
      decodeHeader (write_audio_to_worker samples) ≤ MAX_SAMPLES) := by
  have hmodlt : samples.length % 2 ^ 32 < 2 ^ 32 := Nat.mod_lt _ (by norm_num)
  have hcons : write_audio_to_worker samples =
      samples.length % 2 ^ 32 % 256 :: samples.length % 2 ^ 32 / 256 % 256 ::
        samples.length % 2 ^ 32 / 256 / 256 % 256 ::
        samples.length % 2 ^ 32 / 256 / 256 / 256 % 256 ::
        samples.flatMap u32ToLeBytes := by
    unfold write_audio_to_worker u32ToLeBytes
    rfl
  have hhd : decodeHeader (write_audio_to_worker samples) =
      samples.length % 2 ^ 32 := by
    rw [hcons]
    simp only [decodeHeader]
    exact leBytesToU32_u32ToLeBytes _ hmodlt
  refine ⟨?_, hhd, ?_⟩
  · intro h
    match samples, h with
    | a :: l, _ => rfl
  · intro hle
    rw [hhd]
    have : samples.length < 2 ^ 32 := by
      have : MAX_SAMPLES < 2 ^ 32 := by norm_num [MAX_SAMPLES]
      omega
    rw [Nat.mod_eq_of_lt this]
    exact hle

/-- Witness for the amended C2 at the one-sample buffer. -/
theorem sample_count_field_unchecked_witness :
    (Subprocess.transcribe
      ⟨.ok (), true, true, true, true, true, "", fun _ => none⟩ [0]).1 = true ∧
    decodeHeader (write_audio_to_worker [0]) ≤ MAX_SAMPLES :=
  ⟨(sample_count_field_unchecked
      ⟨.ok (), true, true, true, true, true, "", fun _ => none⟩ [0]).1 (by decide),
   (sample_count_field_unchecked
      ⟨.ok (), true, true, true, true, true, "", fun _ => none⟩ [0]).2.2 (by decide)⟩

/-- C5: a key-pressed stimulus while not `Idle` changes nothing; the next
loop-head state is `Recording` only when the previous one was already
`Recording` or was `Idle` (so `Recording` is only ever entered from
`Idle`); and a timeout tick that observes elapsed recording time above
`max_duration` force-stops the capture and resets to `Idle` with no
transcription dispatched. -/
theorem recording_entry_and_timeout (md : Nat) (it : Iter) (d : DaemonState) :
    (d.state.is_idle = false →
      step md it d (.hotkey .Pressed) =
        { next := d, reports := [], outputs := [],
          transcribed := false, exit := false }) ∧
    (∀ s, (step md it d s).next.state.is_recording = true →
      d.state.is_recording = true ∨ d.state.is_idle = true) ∧
    (∀ t, d.state = .Recording t → md < it.now - t →
      step md it d .timeoutTick =
        { next := { state := .Idle, audio_capture := none },
          reports := ["idle"], outputs := [],
          transcribed := false, exit := false }) := by
  obtain ⟨st, cap⟩ := d
  refine ⟨?_, ?_, ?_⟩
  · intro h
    have hst : st.is_idle = false := h
    simp [step, hst]
  · intro s h
    cases s with
    | hotkey ev =>
        cases ev with
        | Pressed =>
            cases st with
            | Idle => exact Or.inr rfl
            | Recording t => exact Or.inl rfl
            | Transcribing a =>
                simp [step, State.is_idle, State.is_recording] at h
            | Outputting x =>
                simp [step, State.is_idle, State.is_recording] at h
        | Released =>
            cases st with
            | Idle => simp [step, State.is_recording] at h
            | Recording t => exact Or.inl rfl
            | Transcribing a => simp [step, State.is_recording] at h
            | Outputting x => simp [step, State.is_recording] at h
    | timeoutTick =>
        cases st with
        | Idle => simp [step, State.is_recording] at h
        | Recording t => exact Or.inl rfl
        | Transcribing a => simp [step, State.is_recording] at h
        | Outputting x => simp [step, State.is_recording] at h
    | ctrlc =>
        cases st with
        | Idle => simp [step, State.is_recording] at h
        | Recording t => exact Or.inl rfl
        | Transcribing a => simp [step, State.is_recording] at h
        | Outputting x => simp [step, State.is_recording] at h
  · intro t hd hdur
    have hst : st = .Recording t := hd
    subst hst
    simp [step, State.is_recording, State.recording_duration, hdur]

/-- Witness for C5: a tick at instant 5 over a recording started at
instant 0 with `max_duration` 1 resets to `Idle`. -/
theorem recording_entry_and_timeout_witness :
    step 1 ⟨5, .ok (), .ok [], .ok (.ok "x"), true⟩
      ⟨.Recording 0, some ()⟩ .timeoutTick =
      { next := { state := .Idle, audio_capture := none },
        reports := ["idle"], outputs := [],
        transcribed := false, exit := false } :=
  (recording_entry_and_timeout 1 ⟨5, .ok (), .ok [], .ok (.ok "x"), true⟩
    ⟨.Recording 0, some ()⟩).2.2 0 rfl (by decide)

/-- C7: a recorded buffer whose duration is under 0.3 s is discarded: the
loop goes straight from `Recording` to `Idle`, reports only `"idle"`, and
never dispatches the transcriber. -/
theorem short_buffer_discarded (md : Nat) (it : Iter) (d : DaemonState)
    (t : Nat) (samples : List Nat)
    (hd : d.state = .Recording t) (hc : d.audio_capture = some ())
    (hstop : it.stopResult = .ok samples)
    (hshort : audio_duration samples.length < 3 / 10) :
    step md it d (.hotkey .Released) =
      { next := { state := .Idle, audio_capture := none },
        reports := ["idle"], outputs := [],
        transcribed := false, exit := false } := by
  obtain ⟨st, cap⟩ := d
  have hst : st = .Recording t := hd
  have hcap : cap = some () := hc
  subst hst; subst hcap
  simp [step, State.is_recording, hstop, hshort]

/-- Witness for C7 at an empty recorded buffer (0 s duration). -/
theorem short_buffer_discarded_witness :
    step 0 ⟨0, .ok (), .ok [], .ok (.ok "x"), true⟩
      ⟨.Recording 0, some ()⟩ (.hotkey .Released) =
      { next := { state := .Idle, audio_capture := none },
        reports := ["idle"], outputs := [],
        transcribed := false, exit := false } :=
  short_buffer_discarded 0 ⟨0, .ok (), .ok [], .ok (.ok "x"), true⟩
    ⟨.Recording 0, some ()⟩ 0 [] rfl rfl rfl
    ((audio_duration_lt_iff 0).mpr (by decide))

/-- C10: a key-released stimulus in `Recording` with no held audio-capture
handle resets the loop to `Idle`, reporting `"idle"` to the external state
sink, with no transcription dispatched and no error path taken. -/
theorem released_without_capture_resets (md : Nat) (it : Iter)
    (d : DaemonState) (t : Nat)
    (hd : d.state = .Recording t) (hc : d.audio_capture = none) :
    step md it d (.hotkey .Released) =
      { next := { state := .Idle, audio_capture := none },
        reports := ["idle"], outputs := [],
        transcribed := false, exit := false } := by
  obtain ⟨st, cap⟩ := d
  have hst : st = .Recording t := hd
  have hcap : cap = none := hc
  subst hst; subst hcap
  simp [step, State.is_recording]

/-- Witness for C10. -/
theorem released_without_capture_resets_witness :
    step 0 ⟨0, .ok (), .ok [], .ok (.ok "x"), true⟩
      ⟨.Recording 0, none⟩ (.hotkey .Released) =
      { next := { state := .Idle, audio_capture := none },
        reports := ["idle"], outputs := [],
        transcribed := false, exit := false } :=
  released_without_capture_resets 0 ⟨0, .ok (), .ok [], .ok (.ok "x"), true⟩
    ⟨.Recording 0, none⟩ 0 rfl rfl

/-- Formalization of C1 as the code would have to behave for the claim to
hold: an iteration that dispatches a transcription returns to the
multiplex point with the transcription still in flight (loop-head state
`Transcribing`), its completion to be serviced later as one of the
multiplexed sources.  In `src/daemon.rs` the `spawn_blocking` join handle
is instead awaited inline inside the key-released arm (lines 218-221), so
this fails. -/
def transcription_awaited_as_multiplexed_source : Prop :=
  ∀ (md : Nat) (it : Iter) (d : DaemonState) (s : Stim),
    (step md it d s).transcribed = true →
    (step md it d s).next.state.is_transcribing = true

/-- Counterexample to C1 as stated: at the concrete iteration that stops a
0.3 s recording and dispatches its transcription, the loop does not return
to the multiplex point in `Transcribing` — the completion is consumed
inside the same serviced iteration and the next loop-head state is already
`Idle`, so no other stimulus source can be serviced while the
transcription is in flight. -/
theorem transcription_await_not_multiplexed :
    ¬ transcription_awaited_as_multiplexed_source := by
  intro hclaim
  have hlen : (List.replicate 4800 (0 : Nat)).length = 4800 :=
    List.length_replicate 4800 0
  have hnotshort : ¬ audio_duration (List.replicate 4800 (0 : Nat)).length < 3 / 10 := by
    rw [hlen, audio_duration_lt_iff]
    omega
  have hgen : ∀ samples : List Nat, ¬ audio_duration samples.length < 3 / 10 →
      step 0 ⟨0, .ok (), .ok samples, .ok (.ok "hello world"), true⟩
        ⟨.Recording 0, some ()⟩ (.hotkey .Released) =
        { next := { state := .Idle, audio_capture := none },
          reports := ["transcribing", "idle"], outputs := ["hello world"],
          transcribed := true, exit := false } := by
    intro samples hns
    simp [step, State.is_recording, hns]
  have hstep := hgen (List.replicate 4800 (0 : Nat)) hnotshort
  have h2 := hclaim 0
    ⟨0, .ok (), .ok (List.replicate 4800 (0 : Nat)), .ok (.ok "hello world"), true⟩
    ⟨.Recording 0, some ()⟩ (.hotkey .Released) (by rw [hstep])
  rw [hstep] at h2
  simp [State.is_transcribing] at h2

/-- C1 amended: transcription is off-loaded to a separate blocking-thread
task, but its completion is awaited inline inside the key-released arm
rather than as a multiplexed source: a loop-head state that is not
`Transcribing` never becomes `Transcribing` at the next loop head (the
daemon starts at `Idle`, so the loop is never at the multiplex point
mid-transcription), and any iteration that dispatches a transcription also
consumes its completion, ending at `Idle` having reported
`"transcribing"` then `"idle"` within that single serviced iteration —
the other stimulus sources are not serviced in between. -/
theorem transcription_completes_within_iteration (md : Nat) (it : Iter)
    (d : DaemonState) (s : Stim) :
    (d.state.is_transcribing = false →
      (step md it d s).next.state.is_transcribing = false) ∧
    ((step md it d s).transcribed = true →
      (step md it d s).next.state = State.Idle ∧
      (step md it d s).reports = ["transcribing", "idle"]) := by
  obtain ⟨st, cap⟩ := d
  cases s with
  | hotkey ev =>
      cases ev with
      | Pressed =>
          cases st with
          | Idle =>
              cases hcs : it.captureStart with
              | ok u => simp [step, State.is_idle, State.is_transcribing, hcs]
              | error e => simp [step, State.is_idle, State.is_transcribing, hcs]
          | Recording t => simp [step, State.is_idle, State.is_transcribing]
          | Transcribing a => simp [step, State.is_idle, State.is_transcribing]
          | Outputting x => simp [step, State.is_idle, State.is_transcribing]
      | Released =>
          cases st with
          | Idle => simp [step, State.is_recording, State.is_transcribing]
          | Transcribing a => simp [step, State.is_recording, State.is_transcribing]
          | Outputting x => simp [step, State.is_recording, State.is_transcribing]
          | Recording t =>
              cases cap with
              | none => simp [step, State.is_recording, State.is_transcribing]
              | some u =>
                  cases hst : it.stopResult with
                  | error e =>
                      simp [step, State.is_recording, State.is_transcribing, hst]
                  | ok samples =>
                      by_cases hdur : audio_duration samples.length < 3 / 10
                      · simp [step, State.is_recording, State.is_transcribing,
                          hst, hdur]
                      · cases htr : it.transcribeResult with
                        | error e =>
                            simp [step, State.is_recording, State.is_transcribing,
                              hst, hdur, htr]
                        | ok res =>
                            cases res with
                            | error e2 =>
                                simp [step, State.is_recording,
                                  State.is_transcribing, hst, hdur, htr]
                            | ok text =>
                                by_cases hempty : text = ""
                                · simp [step, State.is_recording,
                                    State.is_transcribing, hst, hdur, htr, hempty]
                                · simp [step, State.is_recording,
                                    State.is_transcribing, hst, hdur, htr, hempty]
  | timeoutTick =>
      cases st with
      | Idle => simp [step, State.is_recording, State.is_transcribing]
      | Transcribing a => simp [step, State.is_recording, State.is_transcribing]
      | Outputting x => simp [step, State.is_recording, State.is_transcribing]
      | Recording t =>
          by_cases hdur : md < it.now - t
          · simp [step, State.is_recording, State.recording_duration,
              State.is_transcribing, hdur]
          · simp [step, State.is_recording, State.recording_duration,
              State.is_transcribing, hdur]
  | ctrlc =>
      cases st with
      | Idle => simp [step, State.is_transcribing]
      | Recording t => simp [step, State.is_transcribing]
      | Transcribing a => simp [step, State.is_transcribing]
      | Outputting x => simp [step, State.is_transcribing]

/-- Witness for the amended C1 at a dispatching iteration. -/
theorem transcription_completes_within_iteration_witness :
    (step 0 ⟨0, .ok (), .ok (List.replicate 4800 (0 : Nat)), .ok (.ok "hi"), true⟩
      ⟨.Recording 0, some ()⟩ (.hotkey .Released)).next.state = State.Idle ∧
    (step 0 ⟨0, .ok (), .ok (List.replicate 4800 (0 : Nat)), .ok (.ok "hi"), true⟩
      ⟨.Recording 0, some ()⟩ (.hotkey .Released)).reports =
      ["transcribing", "idle"] := by
  have h := transcription_completes_within_iteration 0
    ⟨0, .ok (), .ok (List.replicate 4800 (0 : Nat)), .ok (.ok "hi"), true⟩
    ⟨.Recording 0, some ()⟩ (.hotkey .Released)
  refine h.2 ?_
  have hnotshort : ¬ audio_duration (List.replicate 4800 (0 : Nat)).length < 3 / 10 := by
    rw [List.length_replicate, audio_duration_lt_iff]
    omega
  have hgen : ∀ samples : List Nat, ¬ audio_duration samples.length < 3 / 10 →
      (step 0 ⟨0, .ok (), .ok samples, .ok (.ok "hi"), true⟩
        ⟨.Recording 0, some ()⟩ (.hotkey .Released)).transcribed = true := by
    intro samples hns
    simp [step, State.is_recording, hns]
  exact hgen (List.replicate 4800 (0 : Nat)) hnotshort

end Voxtype
